import Mathlib

/-!
Shallow embedding of the BobaBot agent (src/agent.py) and verification of
its specification claims.

Python dicts are embedded as Lean structures; JSON-opaque MCP payloads are
abstracted to the only two fields the agent ever reads (`text` and `score`),
following the external-interface contract.  Python floats are embedded as ℚ;
Python `int(x)` truncation toward zero is `pyInt`.  External effects
(subprocess invocation, message delivery, the spreadsheet ledger) are
embedded as oracle function parameters; their results are threaded or
discarded exactly as the source threads or discards them.
-/

namespace BobaBot

/-- Parsed MCP tool response, abstracted to the two fields the agent reads
from a successful response: `text` (AI generation) and `score` (sentiment).
A field the response does not carry is `none`, matching `dict.get`. -/
structure McpPayload where
  text : Option String
  score : Option ℚ
deriving DecidableEq

/-- Result of `call_mcp_tool`: either a parsed payload, or the error dict
`\x7b"error": msg\x7d` built by the bridge on failure. -/
inductive McpResult where
  | payload (p : McpPayload)
  | errorTagged (msg : String)
deriving DecidableEq

/-- Reads `result.get("text")`: an error dict carries no `text` key. -/
def mcpGetText : McpResult → Option String
  | .payload p => p.text
  | .errorTagged _ => none

/-- Reads `result.get("score")`: an error dict carries no `score` key. -/
def mcpGetScore : McpResult → Option ℚ
  | .payload p => p.score
  | .errorTagged _ => none

/-- Outcome of the `subprocess.run` call inside `call_mcp_tool`: either the
process completed with a return code, stdout and stderr, or the call raised
(timeout, serialization failure, spawn failure — anything the `except`
catches), carrying `str(e)`. -/
inductive ProcOutcome where
  | completed (returncode : Int) (stdout stderr : String)
  | raised (msg : String)
deriving DecidableEq

/-- Embeds `_call_mcp_tool` from src/agent.py.  `runProc` is the external
`subprocess.run` invocation of the MCP CLI on the tool name and serialized
params; `parse` is `json.loads` on stdout (its `.error` case is the
`JSONDecodeError` message, raised in Python and caught by the same handler
as the timeout).  Non-zero exit returns the error dict with stderr;
any raise returns the error dict with the exception text. -/
def call_mcp_tool (parse : String → Except String McpPayload)
    (runProc : String → List (String × String) → ProcOutcome)
    (tool : String) (params : List (String × String)) : McpResult :=
  match runProc tool params with
  | .raised msg => .errorTagged msg
  | .completed rc out err =>
    if rc = 0 then
      match parse out with
      | .ok p => .payload p
      | .error m => .errorTagged m
    else .errorTagged err

/-- Input dict for `capture_customer`; `dict.get` on a missing key gives
`None`, so every field is an `Option`. -/
structure CustomerInput where
  name : Option String
  phone : Option String
  email : Option String
  favorite_drink : Option String
deriving DecidableEq

/-- The customer profile dict built by `capture_customer` and mutated by
`track_purchase`. -/
structure CustomerProfile where
  id : String
  name : Option String
  phone : Option String
  email : Option String
  favorite_drink : Option String
  signup_date : String
  total_visits : Nat
  total_spent : ℚ
  loyalty_points : Int
  last_visit : Option String
  status : String
deriving DecidableEq

/-- Embeds `_generate_customer_id`: `"CUST-" + uuid.uuid4().hex[:8].upper()`.
`uuidHex` is the external random `uuid4().hex` (32 lowercase hex chars). -/
def generate_customer_id (uuidHex : List Char) : String :=
  "CUST-" ++ String.mk ((uuidHex.take 8).map Char.toUpper)

/-- Embeds `capture_customer`: builds the profile dict.  `now` is
`datetime.now().isoformat()`. -/
def capture_customer (uuidHex : List Char) (now : String)
    (customer_data : CustomerInput) : CustomerProfile :=
  { id := generate_customer_id uuidHex
    name := customer_data.name
    phone := customer_data.phone
    email := customer_data.email
    favorite_drink := customer_data.favorite_drink
    signup_date := now
    total_visits := 0
    total_spent := 0
    loyalty_points := 100
    last_visit := none
    status := "active" }

/-- Python `str(x)` on an optional string: `None` prints as `"None"`. -/
def pyStr (o : Option String) : String := o.getD "None"

/-- The message text dispatched by the welcome-message helper. -/
def welcome_message (c : CustomerProfile) : String :=
  "Welcome to Boba Club, " ++ pyStr c.name ++ "! You\x27ve earned 100 points!"

/-- The full `capture_customer` call including its effects: the persistence
call `_store_customer_in_sheets` is fire-and-forget — its `McpResult` is
discarded by the source, so the parameter is unused — and the welcome
message is dispatched.  Returns the profile and the dispatched message. -/
def capture_customer_run (persistResult : McpResult) (uuidHex : List Char)
    (now : String) (customer_data : CustomerInput) :
    CustomerProfile × String :=
  let c := capture_customer uuidHex now customer_data
  let _ := persistResult
  (c, welcome_message c)

/-- Purchase dict passed to `track_purchase`. -/
structure Purchase where
  items : List String
  total_amount : ℚ
  store_location : String
deriving DecidableEq

/-- Python `int(x)` on a numeric: truncation toward zero. -/
def pyInt (a : ℚ) : Int := if 0 ≤ a then ⌊a⌋ else ⌈a⌉

/-- The profile mutation performed by `track_purchase` on the loaded
customer: visits +1, spent +amount, last visit set, loyalty +int(amount). -/
def track_purchase (c : CustomerProfile) (purchase_data : Purchase)
    (now : String) : CustomerProfile :=
  { c with
    total_visits := c.total_visits + 1
    total_spent := c.total_spent + purchase_data.total_amount
    last_visit := some now
    loyalty_points := c.loyalty_points + pyInt purchase_data.total_amount }

/-- Embeds `track_purchase(customer_id, purchase_data)`: loads the profile through
`_get_customer` — an unimplemented external-ledger stub in the source
("In production, query Google Sheets"), embedded as the oracle `lookup` —
then applies the mutation. -/
def track_purchase_by_id (lookup : String → CustomerProfile)
    (customer_id : String) (purchase_data : Purchase) (now : String) :
    CustomerProfile :=
  track_purchase (lookup customer_id) purchase_data now

/-- Embeds `_check_milestone_rewards`: membership of the visit count in the fixed
milestone set. -/
def check_milestone (c : CustomerProfile) : Bool :=
  c.total_visits ∈ [5, 10, 25, 50, 100]

/-- A sequence of purchases applied in order, each tagged with its
timestamp. -/
def apply_purchases (c : CustomerProfile) (ps : List (Purchase × String)) :
    CustomerProfile :=
  ps.foldl (fun acc pr => track_purchase acc pr.1 pr.2) c

/-- Embeds `_generate_personalized_message`: the AI result of the bridge call is
read with `result.get("text", "We miss you! Come back for 15% off!")`, so a
result without a `text` payload (in particular an error dict) degrades to
the fixed default message. -/
def generate_personalized_message (aiResult : McpResult) : String :=
  (mcpGetText aiResult).getD "We miss you! Come back for 15% off!"

/-- The results dict of `_run_we_miss_you_campaign`. -/
structure WeMissYouResult where
  campaign : String
  target_count : Nat
  messages_sent : Nat
  errors : Nat
deriving DecidableEq

/-- One iteration of the re-engagement loop over the accumulator
(messages_sent, errors, successful-send log): the `try` block generates and
sends; `except` increments `errors` and continues. -/
def weMissYouStep (gen : CustomerProfile → Except String String)
    (send : CustomerProfile → String → Except String Unit)
    (acc : Nat × Nat × List (CustomerProfile × String))
    (c : CustomerProfile) : Nat × Nat × List (CustomerProfile × String) :=
  match gen c with
  | .error _ => (acc.1, acc.2.1 + 1, acc.2.2)
  | .ok m =>
    match send c m with
    | .error _ => (acc.1, acc.2.1 + 1, acc.2.2)
    | .ok _ => (acc.1 + 1, acc.2.1, acc.2.2 ++ [(c, m)])

/-- Embeds `_run_we_miss_you_campaign`: iterate over the inactive customers; the
fallible message generation (`gen`) and send (`send`) steps are oracles
whose exceptions are the `Except.error` case, caught per customer.
Returns the results dict and the log of messages actually sent. -/
def run_we_miss_you_campaign (gen : CustomerProfile → Except String String)
    (send : CustomerProfile → String → Except String Unit)
    (inactive_customers : List CustomerProfile) :
    WeMissYouResult × List (CustomerProfile × String) :=
  let acc := inactive_customers.foldl (weMissYouStep gen send) (0, 0, [])
  ({ campaign := "We Miss You"
     target_count := inactive_customers.length
     messages_sent := acc.1
     errors := acc.2.1 }, acc.2.2)

/-- Python `str.isspace` on the ASCII whitespace characters `strip()`
removes. -/
def pyIsSpace (c : Char) : Bool :=
  c = ' ' || c = '\t' || c = '\n' || c = '\r' || c = '\x0b' || c = '\x0c'

/-- Drop leading whitespace from a character list. -/
def dropLeadingWs : List Char → List Char
  | [] => []
  | c :: cs => if pyIsSpace c then dropLeadingWs cs else c :: cs

/-- Python `str.strip()`: remove leading and trailing whitespace. -/
def pyStrip (s : String) : String :=
  String.mk ((dropLeadingWs ((dropLeadingWs s.toList).reverse)).reverse)

/-- Split a character list at every newline; like Python `split("\n")`,
the empty input yields one empty segment. -/
def splitNl : List Char → List (List Char)
  | [] => [[]]
  | c :: cs =>
    match splitNl cs with
    | [] => [[c]]
    | h :: t => if c = '\n' then [] :: h :: t else (c :: h) :: t

/-- Python `str.split("\n")`. -/
def pySplitNl (s : String) : List String := (splitNl s.toList).map String.mk

/-- Embeds `_get_ai_recommendations`: `result.get("text", "").strip().split("\n")`
then keep `r.strip()` for each line whose strip is non-empty (Python
truthiness of a string is non-emptiness). -/
def get_ai_recommendations (aiResult : McpResult) : List String :=
  (pySplitNl (pyStrip ((mcpGetText aiResult).getD ""))).filterMap fun r =>
    let t := pyStrip r
    if t = "" then none else some t

/-- Embeds `_generate_recommendation_message`. -/
def generate_recommendation_message (c : CustomerProfile)
    (recommendations : List String) : String :=
  "Hi " ++ pyStr c.name ++ "! Based on your taste, you might love: " ++
    String.intercalate ", " recommendations

/-- The results dict of `_run_recommendation_campaign`. -/
structure RecommendationResult where
  campaign : String
  target_count : Nat
  recommendations_sent : Nat
deriving DecidableEq

/-- One iteration of the recommendation loop: ask the AI (`bridge` is the
per-customer Tool Bridge outcome), and only when the filtered
recommendation list is non-empty generate, send, and count. -/
def recommendationStep (bridge : CustomerProfile → McpResult)
    (acc : Nat × List (CustomerProfile × String)) (c : CustomerProfile) :
    Nat × List (CustomerProfile × String) :=
  let recommendations := get_ai_recommendations (bridge c)
  if recommendations.isEmpty then acc
  else (acc.1 + 1,
        acc.2 ++ [(c, generate_recommendation_message c recommendations)])

/-- Embeds `_run_recommendation_campaign`: iterate over the recent customers.
Returns the results dict and the log of messages actually sent. -/
def run_recommendation_campaign (bridge : CustomerProfile → McpResult)
    (recent_customers : List CustomerProfile) :
    RecommendationResult × List (CustomerProfile × String) :=
  let acc := recent_customers.foldl (recommendationStep bridge) (0, [])
  ({ campaign := "Personalized Recommendations"
     target_count := recent_customers.length
     recommendations_sent := acc.1 }, acc.2)

/-- One sales row as read by `generate_sales_report` (`sale["amount"]`). -/
structure Sale where
  amount : ℚ
deriving DecidableEq

/-- The metrics block of the sales report.  `top_selling_items`,
`peak_hours` and `loyalty_member_percentage` are the fixed placeholder
values the source helpers return. -/
structure SalesMetrics where
  total_revenue : ℚ
  total_transactions : Nat
  average_transaction : ℚ
  top_selling_items : List String
  peak_hours : List String
  loyalty_member_percentage : ℚ
deriving DecidableEq

/-- The report dict of `generate_sales_report`. -/
structure SalesReport where
  store_id : String
  period : String
  generated_at : String
  metrics : SalesMetrics
deriving DecidableEq

/-- Embeds `generate_sales_report`: revenue is the sum of amounts, the count is the
row count, and `average_transaction` starts at 0 and is overwritten with
revenue / count only when the count is positive.  The report is persisted
fire-and-forget (result discarded). -/
def generate_sales_report (store_id period now : String)
    (sales_data : List Sale) : SalesReport :=
  let revenue := (sales_data.map Sale.amount).sum
  let count := sales_data.length
  { store_id := store_id
    period := period
    generated_at := now
    metrics :=
      { total_revenue := revenue
        total_transactions := count
        average_transaction := if 0 < count then revenue / count else 0
        top_selling_items :=
          ["Taro Milk Tea", "Brown Sugar Boba", "Mango Smoothie"]
        peak_hours := ["2pm-4pm", "7pm-9pm"]
        loyalty_member_percentage := 71 / 2 } }

/-- Embeds `_generate_apology_email`: fixed text. -/
def generate_apology_email (_feedback : String) : String :=
  "We\x27re sorry for your experience. Please accept this free drink coupon."

/-- The dict returned by `analyze_customer_sentiment`.  `apology_email` is
`none` on the non-escalated branch, whose dict has no such key. -/
structure SentimentOutput where
  sentiment : String
  score : Option ℚ
  action_taken : String
  apology_email : Option String
deriving DecidableEq

/-- Embeds `analyze_customer_sentiment`: `sentiment` is the Tool Bridge result for
the sentiment tool.  The escalation test is `sentiment.get("score", 0) <
-0.5` (missing score defaults to 0); escalation alerts the manager (second
component collects the `_alert_manager` payloads) and generates an apology.
Otherwise the label is `"positive"` iff `score > 0` strictly, else
`"neutral"`, with action `"none"`. -/
def analyze_customer_sentiment (feedback_text : String)
    (sentiment : McpResult) : SentimentOutput × List String :=
  if (mcpGetScore sentiment).getD 0 < -(1 / 2 : ℚ) then
    ({ sentiment := "negative"
       score := mcpGetScore sentiment
       action_taken := "manager_alerted_and_apology_generated"
       apology_email := some (generate_apology_email feedback_text) },
     ["Negative feedback detected: " ++ feedback_text])
  else
    ({ sentiment :=
         if (0 : ℚ) < (mcpGetScore sentiment).getD 0 then "positive"
         else "neutral"
       score := mcpGetScore sentiment
       action_taken := "none"
       apology_email := none },
     [])

/-! ## Helper lemmas and sample data -/

/-- A concrete fully-populated profile, used for concrete evaluations. -/
def sampleProfile : CustomerProfile :=
  { id := "CUST-00000000"
    name := some "Sample Customer"
    phone := none
    email := none
    favorite_drink := some "Taro Milk Tea"
    signup_date := "2025-01-01T00:00:00"
    total_visits := 4
    total_spent := 10
    loyalty_points := 110
    last_visit := none
    status := "active" }

/-- The demo sign-up input from the main block of the source. -/
def sampleInput : CustomerInput :=
  { name := some "Nguyen Van A"
    phone := some "+84901234567"
    email := some "nguyen@example.com"
    favorite_drink := some "Taro Milk Tea" }

/-- The sixteen characters `uuid4().hex` draws from. -/
def lowerHexChars : List Char := "0123456789abcdef".toList

/-- The sixteen characters the uppercased id suffix draws from. -/
def upperHexChars : List Char := "0123456789ABCDEF".toList

/-- Uppercasing a lowercase hex character yields an uppercase hex
character. -/
lemma toUpper_mem_upperHexChars :
    ∀ c ∈ lowerHexChars, c.toUpper ∈ upperHexChars := by decide

/-- Adding a purchase with non-negative amount never lowers the loyalty
balance: `int(amount)` is `floor` there, and the floor of a non-negative
rational is non-negative. -/
lemma track_purchase_loyalty_mono (c : CustomerProfile) (p : Purchase)
    (t : String) (h : 0 ≤ p.total_amount) :
    c.loyalty_points ≤ (track_purchase c p t).loyalty_points := by
  have hf : (0 : ℤ) ≤ ⌊p.total_amount⌋ :=
    Int.le_floor.mpr (by exact_mod_cast h)
  simp only [track_purchase, pyInt, if_pos h]
  omega

/-- Monotonicity of the loyalty balance over a sequence of non-negative
purchases. -/
lemma apply_purchases_loyalty_mono :
    ∀ (ps : List (Purchase × String)) (c : CustomerProfile),
      (∀ pr ∈ ps, 0 ≤ pr.1.total_amount) →
      c.loyalty_points ≤ (apply_purchases c ps).loyalty_points := by
  intro ps
  induction ps with
  | nil => intro c _; simp [apply_purchases]
  | cons pr t ih =>
    intro c h
    have h1 : c.loyalty_points ≤ (track_purchase c pr.1 pr.2).loyalty_points :=
      track_purchase_loyalty_mono c pr.1 pr.2 (h pr (List.mem_cons_self pr t))
    have h2 := ih (track_purchase c pr.1 pr.2)
      (fun q hq => h q (List.mem_cons_of_mem pr hq))
    show c.loyalty_points ≤
      (apply_purchases (track_purchase c pr.1 pr.2) t).loyalty_points
    exact le_trans h1 h2

lemma weMissYou_foldl_count (gen : CustomerProfile → Except String String)
    (send : CustomerProfile → String → Except String Unit) :
    ∀ (l : List CustomerProfile)
      (a : Nat × Nat × List (CustomerProfile × String)),
      (l.foldl (weMissYouStep gen send) a).1 +
        (l.foldl (weMissYouStep gen send) a).2.1 =
        a.1 + a.2.1 + l.length := by
  intro l
  induction l with
  | nil => intro a; simp
  | cons c t ih =>
    intro a
    rw [List.foldl_cons, ih]
    unfold weMissYouStep
    rcases hg : gen c with e | m
    · simp only [hg, List.length_cons]
      omega
    · rcases hs : send c m with e | u <;>
        simp only [hg, hs, List.length_cons] <;> omega

/-- When generation and sending are both total (as they are when the
generated text falls back to a default), the re-engagement loop counts
every customer as sent and logs every message. -/
lemma weMissYouStep_total (g : CustomerProfile → String)
    (a : Nat × Nat × List (CustomerProfile × String)) (c : CustomerProfile) :
    weMissYouStep (fun x => .ok (g x)) (fun _ _ => .ok ()) a c =
      (a.1 + 1, a.2.1, a.2.2 ++ [(c, g c)]) := rfl

lemma weMissYou_foldl_total (g : CustomerProfile → String) :
    ∀ (l : List CustomerProfile)
      (a : Nat × Nat × List (CustomerProfile × String)),
      l.foldl (weMissYouStep (fun x => .ok (g x)) (fun _ _ => .ok ())) a =
        (a.1 + l.length, a.2.1, a.2.2 ++ l.map fun c => (c, g c)) := by
  intro l
  induction l with
  | nil => intro a; simp
  | cons c t ih =>
    intro a
    rw [List.foldl_cons, ih, weMissYouStep_total]
    simp only [List.map_cons, List.length_cons, List.append_assoc,
      List.singleton_append, Prod.mk.injEq, and_true, true_and]
    omega

/-- The recommendation loop unfolds to a filter on non-empty
recommendation lists: the counter counts exactly the customers whose
recommendations are non-empty and the log holds exactly their messages. -/
lemma recommendation_foldl (bridge : CustomerProfile → McpResult) :
    ∀ (l : List CustomerProfile)
      (a : Nat × List (CustomerProfile × String)),
      l.foldl (recommendationStep bridge) a =
        (a.1 + (l.filter fun c =>
          !(get_ai_recommendations (bridge c)).isEmpty).length,
         a.2 ++ (l.filter fun c =>
            !(get_ai_recommendations (bridge c)).isEmpty).map fun c =>
              (c, generate_recommendation_message c
                (get_ai_recommendations (bridge c)))) := by
  intro l
  induction l with
  | nil => intro a; simp
  | cons c t ih =>
    intro a
    rw [List.foldl_cons, ih]
    unfold recommendationStep
    cases hrec : (get_ai_recommendations (bridge c)).isEmpty with
    | true =>
      simp only [hrec, if_true, List.filter_cons, Bool.not_true,
        Bool.false_eq_true, if_false]
    | false =>
      simp only [hrec, Bool.false_eq_true, if_false, List.filter_cons,
        Bool.not_false, if_true, List.length_cons, List.map_cons,
        List.append_assoc, List.singleton_append, Prod.mk.injEq,
        and_true, true_and]
      omega

/-! ## Claim theorems -/

/-- C1: in the re-engagement ("We Miss You") campaign, any exception raised
by message generation or sending for an individual customer is caught
locally (the loop body is total over the oracle `Except` outcomes), the
failure counter is incremented, and iteration continues, so for every list
of N targeted inactive customers the returned result satisfies
`messages_sent + errors = N` with `target_count = N` — every one of the N
customers is processed and the batch never aborts. -/
theorem we_miss_you_isolates_per_customer_failures
    (gen : CustomerProfile → Except String String)
    (send : CustomerProfile → String → Except String Unit)
    (inactive_customers : List CustomerProfile) :
    (run_we_miss_you_campaign gen send inactive_customers).1.messages_sent +
      (run_we_miss_you_campaign gen send inactive_customers).1.errors =
      inactive_customers.length ∧
    (run_we_miss_you_campaign gen send inactive_customers).1.target_count =
      inactive_customers.length := by
  constructor
  · have h := weMissYou_foldl_count gen send inactive_customers (0, 0, [])
    simpa [run_we_miss_you_campaign] using h
  · rfl

/-- C2: the Tool Bridge `_call_mcp_tool` never raises past the bridge
boundary (the embedding is a total function into `McpResult`), and on
non-zero process exit, on a raised exception (timeout included), and on
response parse failure it returns an error-tagged result carrying the
respective diagnostic message, while on zero exit with a parseable
response it returns the parsed payload. -/
theorem call_mcp_tool_never_raises
    (parse : String → Except String McpPayload)
    (runProc : String → List (String × String) → ProcOutcome)
    (tool : String) (params : List (String × String)) :
    (∀ msg, runProc tool params = .raised msg →
      call_mcp_tool parse runProc tool params = .errorTagged msg) ∧
    (∀ rc out err, runProc tool params = .completed rc out err → rc ≠ 0 →
      call_mcp_tool parse runProc tool params = .errorTagged err) ∧
    (∀ out err m, runProc tool params = .completed 0 out err →
      parse out = .error m →
      call_mcp_tool parse runProc tool params = .errorTagged m) ∧
    (∀ out err p, runProc tool params = .completed 0 out err →
      parse out = .ok p →
      call_mcp_tool parse runProc tool params = .payload p) := by
  refine ⟨?_, ?_, ?_, ?_⟩
  · intro msg h
    simp [call_mcp_tool, h]
  · intro rc out err h hrc
    simp [call_mcp_tool, h, hrc]
  · intro out err m h hp
    simp [call_mcp_tool, h, hp]
  · intro out err p h hp
    simp [call_mcp_tool, h, hp]

/-- Witness for C2: a process that exits with code 1 and stderr "boom"
yields the error-tagged result carrying "boom". -/
theorem call_mcp_tool_never_raises_witness :
    call_mcp_tool (fun _ => .error "unparsed")
      (fun _ _ => .completed 1 "" "boom") "tool" [] =
      .errorTagged "boom" :=
  (call_mcp_tool_never_raises (fun _ => .error "unparsed")
    (fun _ _ => .completed 1 "" "boom") "tool" []).2.1 1 "" "boom" rfl
    (by decide)

/-- C4: `generate_sales_report` computes `total_revenue` as the sum of the
transaction amounts, `total_transactions` as the row count, and
`average_transaction` as revenue divided by count when the count is
positive and exactly 0 when the count is zero (no division fault). -/
theorem generate_sales_report_metrics (store_id period now : String)
    (sales_data : List Sale) :
    (generate_sales_report store_id period now sales_data).metrics.total_revenue
      = (sales_data.map Sale.amount).sum ∧
    (generate_sales_report store_id period now
        sales_data).metrics.total_transactions = sales_data.length ∧
    (0 < sales_data.length →
      (generate_sales_report store_id period now
          sales_data).metrics.average_transaction =
        (sales_data.map Sale.amount).sum / (sales_data.length : ℚ)) ∧
    (sales_data.length = 0 →
      (generate_sales_report store_id period now
          sales_data).metrics.average_transaction = 0) := by
  refine ⟨rfl, rfl, ?_, ?_⟩
  · intro h
    simp [generate_sales_report, h]
  · intro h
    simp [generate_sales_report, h]

/-- Witness for C4: transactions with amounts 10, 20, 30 yield revenue 60,
count 3, average 20, and zero transactions yield revenue 0 and average 0. -/
theorem generate_sales_report_metrics_witness :
    (generate_sales_report "STORE-001" "daily" "t"
        [⟨10⟩, ⟨20⟩, ⟨30⟩]).metrics.total_revenue = 60 ∧
    (generate_sales_report "STORE-001" "daily" "t"
        [⟨10⟩, ⟨20⟩, ⟨30⟩]).metrics.total_transactions = 3 ∧
    (generate_sales_report "STORE-001" "daily" "t"
        [⟨10⟩, ⟨20⟩, ⟨30⟩]).metrics.average_transaction = 20 ∧
    (generate_sales_report "STORE-001" "daily" "t"
        []).metrics.total_revenue = 0 ∧
    (generate_sales_report "STORE-001" "daily" "t"
        []).metrics.average_transaction = 0 := by
  have h3 := generate_sales_report_metrics "STORE-001" "daily" "t"
    [⟨10⟩, ⟨20⟩, ⟨30⟩]
  have h0 := generate_sales_report_metrics "STORE-001" "daily" "t" []
  refine ⟨?_, h3.2.1, ?_, ?_, h0.2.2.2 rfl⟩
  · rw [h3.1]; norm_num
  · rw [h3.2.2.1 (by decide)]; norm_num
  · rw [h0.1]; norm_num

/-- C5: for every ledger lookup, customer id and purchase with
non-negative amount a, `track_purchase` returns the loaded profile with
`total_visits` increased by exactly 1, `total_spent` increased by exactly
a, `loyalty_points` increased by exactly floor(a) (Python `int(a)`
truncates toward zero, which is floor for a ≥ 0), and `last_visit` set to
the current time.  The profile load `_get_customer` is an unimplemented
external-ledger stub in the source, embedded as the oracle `lookup`. -/
theorem track_purchase_updates_profile
    (lookup : String → CustomerProfile) (customer_id : String)
    (p : Purchase) (now : String) (h : 0 ≤ p.total_amount) :
    (track_purchase_by_id lookup customer_id p now).total_visits =
      (lookup customer_id).total_visits + 1 ∧
    (track_purchase_by_id lookup customer_id p now).total_spent =
      (lookup customer_id).total_spent + p.total_amount ∧
    (track_purchase_by_id lookup customer_id p now).loyalty_points =
      (lookup customer_id).loyalty_points + ⌊p.total_amount⌋ ∧
    (track_purchase_by_id lookup customer_id p now).last_visit = some now := by
  refine ⟨rfl, rfl, ?_, rfl⟩
  simp [track_purchase_by_id, track_purchase, pyInt, if_pos h]

/-- Witness for C5: a purchase of amount 7/2 on a profile with 4 visits,
total spent 10 and 110 points yields 5 visits, 27/2 spent, 113 points
(floor(7/2) = 3) and the new last-visit timestamp. -/
theorem track_purchase_updates_profile_witness :
    (0 : ℚ) ≤ 7 / 2 ∧
    (track_purchase_by_id (fun _ => sampleProfile) "CUST-X"
        ⟨["Taro Milk Tea"], 7 / 2, "STORE-001"⟩
        "2025-02-01T00:00:00").total_visits = 5 ∧
    (track_purchase_by_id (fun _ => sampleProfile) "CUST-X"
        ⟨["Taro Milk Tea"], 7 / 2, "STORE-001"⟩
        "2025-02-01T00:00:00").total_spent = 27 / 2 ∧
    (track_purchase_by_id (fun _ => sampleProfile) "CUST-X"
        ⟨["Taro Milk Tea"], 7 / 2, "STORE-001"⟩
        "2025-02-01T00:00:00").loyalty_points = 113 ∧
    (track_purchase_by_id (fun _ => sampleProfile) "CUST-X"
        ⟨["Taro Milk Tea"], 7 / 2, "STORE-001"⟩
        "2025-02-01T00:00:00").last_visit = some "2025-02-01T00:00:00" := by
  have h := track_purchase_updates_profile (fun _ => sampleProfile) "CUST-X"
    ⟨["Taro Milk Tea"], 7 / 2, "STORE-001"⟩ "2025-02-01T00:00:00"
    (by norm_num)
  refine ⟨by norm_num, ?_, ?_, ?_, h.2.2.2⟩
  · rw [h.1]; rfl
  · rw [h.2.1]; norm_num [sampleProfile]
  · rw [h.2.2.1]; norm_num [sampleProfile]

/-- C6 counterexample: the claim quantifies over all purchase inputs, but
`track_purchase` adds `int(total_amount)`, which is negative for a
purchase of amount -1: immediately after capture the balance is 100, and
one subsequent `track_purchase` lowers it to 99, so loyalty points are not
non-decreasing over all purchase inputs. -/
theorem loyalty_points_decrease_on_negative_amount :
    (capture_customer ("0123456789abcdef".toList) "2025-01-01T00:00:00"
        sampleInput).loyalty_points = 100 ∧
    (track_purchase
        (capture_customer ("0123456789abcdef".toList) "2025-01-01T00:00:00"
          sampleInput)
        ⟨[], -1, "STORE-001"⟩ "2025-01-02T00:00:00").loyalty_points = 99 := by
  constructor
  · rfl
  · simp only [track_purchase, capture_customer, pyInt]
    norm_num [Int.ceil_neg, Int.floor_one]

/-- C6 as amended: loyalty points start at exactly 100 at capture and are
non-decreasing across every subsequent `track_purchase` whose purchase
amount is non-negative (the data model constrains purchase amounts to be
non-negative); the per-step monotonicity holds for every profile. -/
theorem loyalty_points_monotone_for_nonneg_amounts
    (uuidHex : List Char) (now : String) (inp : CustomerInput)
    (ps : List (Purchase × String))
    (h : ∀ pr ∈ ps, 0 ≤ pr.1.total_amount) :
    (capture_customer uuidHex now inp).loyalty_points = 100 ∧
    100 ≤ (apply_purchases (capture_customer uuidHex now inp)
            ps).loyalty_points ∧
    (∀ (c : CustomerProfile) (p : Purchase) (t : String),
      0 ≤ p.total_amount →
      c.loyalty_points ≤ (track_purchase c p t).loyalty_points) := by
  refine ⟨rfl, ?_, fun c p t hp => track_purchase_loyalty_mono c p t hp⟩
  have hm := apply_purchases_loyalty_mono ps
    (capture_customer uuidHex now inp) h
  have hc : (capture_customer uuidHex now inp).loyalty_points = 100 := rfl
  omega

/-- Witness for the amended C6: after capture and two purchases of amounts
5/2 and 0, the balance is 102 ≥ 100. -/
theorem loyalty_points_monotone_witness :
    (∀ pr ∈ [((⟨[], 5 / 2, "STORE-001"⟩ : Purchase), "2025-01-02"),
             ((⟨[], 0, "STORE-001"⟩ : Purchase), "2025-01-03")],
      (0 : ℚ) ≤ pr.1.total_amount) ∧
    100 ≤ (apply_purchases
        (capture_customer ("0123456789abcdef".toList) "2025-01-01"
          sampleInput)
        [((⟨[], 5 / 2, "STORE-001"⟩ : Purchase), "2025-01-02"),
         ((⟨[], 0, "STORE-001"⟩ : Purchase), "2025-01-03")]).loyalty_points :=
  ⟨by norm_num [List.forall_mem_cons],
   (loyalty_points_monotone_for_nonneg_amounts
      ("0123456789abcdef".toList) "2025-01-01" sampleInput
      [((⟨[], 5 / 2, "STORE-001"⟩ : Purchase), "2025-01-02"),
       ((⟨[], 0, "STORE-001"⟩ : Purchase), "2025-01-03")]
      (by norm_num [List.forall_mem_cons])).2.1⟩

/-- C3: for every score s returned by the sentiment tool,
`analyze_customer_sentiment` escalates iff s < -0.5 strictly — returning
sentiment "negative", action "manager_alerted_and_apology_generated", the
manager alert and the generated apology — and otherwise returns action
"none" with no alert and no apology, with sentiment "positive" iff s > 0
strictly and "neutral" iff s ≤ 0; in particular s = -0.5 is not escalated
and s = 0 yields "neutral". -/
theorem analyze_sentiment_threshold (feedback_text : String) (s : ℚ) :
    ((analyze_customer_sentiment feedback_text
        (.payload ⟨none, some s⟩)).1.action_taken =
      "manager_alerted_and_apology_generated" ↔ s < -(1 / 2)) ∧
    (s < -(1 / 2) →
      (analyze_customer_sentiment feedback_text
          (.payload ⟨none, some s⟩)).1.sentiment = "negative" ∧
      (analyze_customer_sentiment feedback_text
          (.payload ⟨none, some s⟩)).1.score = some s ∧
      (analyze_customer_sentiment feedback_text
          (.payload ⟨none, some s⟩)).1.apology_email =
        some (generate_apology_email feedback_text) ∧
      (analyze_customer_sentiment feedback_text
          (.payload ⟨none, some s⟩)).2 =
        ["Negative feedback detected: " ++ feedback_text]) ∧
    (¬s < -(1 / 2) →
      (analyze_customer_sentiment feedback_text
          (.payload ⟨none, some s⟩)).1.action_taken = "none" ∧
      (analyze_customer_sentiment feedback_text
          (.payload ⟨none, some s⟩)).1.apology_email = none ∧
      (analyze_customer_sentiment feedback_text
          (.payload ⟨none, some s⟩)).2 = [] ∧
      ((analyze_customer_sentiment feedback_text
          (.payload ⟨none, some s⟩)).1.sentiment = "positive" ↔ 0 < s) ∧
      ((analyze_customer_sentiment feedback_text
          (.payload ⟨none, some s⟩)).1.sentiment = "neutral" ↔ s ≤ 0)) := by
  unfold analyze_customer_sentiment
  simp only [mcpGetScore, Option.getD_some]
  by_cases h : s < -(1 / 2 : ℚ)
  · rw [if_pos h]
    exact ⟨iff_of_true rfl h, fun _ => ⟨rfl, rfl, rfl, rfl⟩,
      fun hn => absurd h hn⟩
  · rw [if_neg h]
    refine ⟨iff_of_false
      (show ¬("none" = "manager_alerted_and_apology_generated") by decide) h,
      fun hx => absurd hx h, fun _ => ⟨rfl, rfl, rfl, ?_, ?_⟩⟩
    · show (if (0 : ℚ) < s then "positive" else "neutral") = "positive" ↔
        0 < s
      by_cases hp : (0 : ℚ) < s
      · rw [if_pos hp]; exact iff_of_true rfl hp
      · rw [if_neg hp]; exact iff_of_false (by decide) hp
    · show (if (0 : ℚ) < s then "positive" else "neutral") = "neutral" ↔
        s ≤ 0
      by_cases hp : (0 : ℚ) < s
      · rw [if_pos hp]
        exact iff_of_false (by decide) (by linarith)
      · rw [if_neg hp]; exact iff_of_true rfl (not_lt.mp hp)

/-- Witness for C3: score -0.6 escalates; score -0.5 exactly does not
(action "none"); score 0.3 yields "positive"; score 0 yields "neutral". -/
theorem analyze_sentiment_threshold_witness :
    (analyze_customer_sentiment "bad service"
        (.payload ⟨none, some (-(3 / 5))⟩)).1.action_taken =
      "manager_alerted_and_apology_generated" ∧
    (analyze_customer_sentiment "meh"
        (.payload ⟨none, some (-(1 / 2))⟩)).1.action_taken = "none" ∧
    (analyze_customer_sentiment "nice"
        (.payload ⟨none, some (3 / 10)⟩)).1.sentiment = "positive" ∧
    (analyze_customer_sentiment "flat"
        (.payload ⟨none, some 0⟩)).1.sentiment = "neutral" := by
  refine ⟨?_, ?_, ?_, ?_⟩
  · exact (analyze_sentiment_threshold "bad service" (-(3 / 5))).1.mpr
      (by norm_num)
  · exact ((analyze_sentiment_threshold "meh" (-(1 / 2))).2.2
      (by norm_num)).1
  · exact (((analyze_sentiment_threshold "nice" (3 / 10)).2.2
      (by norm_num)).2.2.2.1).mpr (by norm_num)
  · exact (((analyze_sentiment_threshold "flat" 0).2.2
      (by norm_num)).2.2.2.2).mpr (by norm_num)

/-- C10: when the sentiment tool result carries no score field — in
particular when the Tool Bridge returns an error-tagged result — the score
defaults to 0 in both threshold comparisons, so the returned dict is
sentiment "neutral", action "none", null score and no apology, and no
manager alert is emitted. -/
theorem analyze_sentiment_missing_score_is_neutral
    (feedback_text : String) (r : McpResult)
    (h : mcpGetScore r = none) :
    analyze_customer_sentiment feedback_text r =
      ({ sentiment := "neutral", score := none, action_taken := "none",
         apology_email := none }, []) := by
  unfold analyze_customer_sentiment
  rw [h]
  norm_num

/-- Witness for C10: an error-tagged bridge result yields the neutral,
action-free dict with a null score and no alert. -/
theorem analyze_sentiment_missing_score_witness :
    analyze_customer_sentiment "service was ok"
        (.errorTagged "MCP tool error") =
      ({ sentiment := "neutral", score := none, action_taken := "none",
         apology_email := none }, []) :=
  analyze_sentiment_missing_score_is_neutral "service was ok"
    (.errorTagged "MCP tool error") rfl

/-- C7: for every input mapping (missing fields degrade to null values),
`capture_customer` returns a profile with loyalty_points exactly 100,
total_visits 0, total_spent 0, status "active", null last_visit, an id
consisting of the fixed "CUST-" prefixed onto 8 uppercase hex characters
taken from the uppercased uuid hex, and the returned profile is identical
regardless of the result of the persistence call (fire-and-forget). -/
theorem capture_customer_profile_shape
    (persist1 persist2 : McpResult) (uuidHex : List Char) (now : String)
    (customer_data : CustomerInput)
    (hlen : 8 ≤ uuidHex.length)
    (hhex : ∀ c ∈ uuidHex, c ∈ lowerHexChars) :
    (capture_customer uuidHex now customer_data).loyalty_points = 100 ∧
    (capture_customer uuidHex now customer_data).total_visits = 0 ∧
    (capture_customer uuidHex now customer_data).total_spent = 0 ∧
    (capture_customer uuidHex now customer_data).status = "active" ∧
    (capture_customer uuidHex now customer_data).last_visit = none ∧
    (capture_customer uuidHex now customer_data).name = customer_data.name ∧
    (capture_customer uuidHex now customer_data).phone =
      customer_data.phone ∧
    (capture_customer uuidHex now customer_data).email =
      customer_data.email ∧
    (capture_customer uuidHex now customer_data).favorite_drink =
      customer_data.favorite_drink ∧
    (capture_customer uuidHex now customer_data).id =
      "CUST-" ++ String.mk ((uuidHex.take 8).map Char.toUpper) ∧
    ((uuidHex.take 8).map Char.toUpper).length = 8 ∧
    (∀ ch ∈ (uuidHex.take 8).map Char.toUpper, ch ∈ upperHexChars) ∧
    capture_customer_run persist1 uuidHex now customer_data =
      capture_customer_run persist2 uuidHex now customer_data := by
  refine ⟨rfl, rfl, rfl, rfl, rfl, rfl, rfl, rfl, rfl, rfl, ?_, ?_, rfl⟩
  · rw [List.length_map, List.length_take]
    omega
  · intro ch hch
    rw [List.mem_map] at hch
    obtain ⟨c, hc, rfl⟩ := hch
    exact toUpper_mem_upperHexChars c (hhex c (List.take_subset 8 uuidHex hc))

/-- Witness for C7: a concrete 32-character lowercase uuid hex yields the
id "CUST-A1B2C3D4" on the demo input, with the welcome-bonus profile, and
the run is unchanged between a failed and a successful persistence
result. -/
theorem capture_customer_profile_shape_witness :
    (capture_customer ("a1b2c3d4e5f6a7b8a1b2c3d4e5f6a7b8".toList)
        "2025-01-01T00:00:00" sampleInput).loyalty_points = 100 ∧
    (capture_customer ("a1b2c3d4e5f6a7b8a1b2c3d4e5f6a7b8".toList)
        "2025-01-01T00:00:00" sampleInput).total_visits = 0 ∧
    (capture_customer ("a1b2c3d4e5f6a7b8a1b2c3d4e5f6a7b8".toList)
        "2025-01-01T00:00:00" sampleInput).status = "active" ∧
    (capture_customer ("a1b2c3d4e5f6a7b8a1b2c3d4e5f6a7b8".toList)
        "2025-01-01T00:00:00" sampleInput).id = "CUST-A1B2C3D4" ∧
    capture_customer_run (.errorTagged "sheet write failed")
        ("a1b2c3d4e5f6a7b8a1b2c3d4e5f6a7b8".toList) "2025-01-01T00:00:00"
        sampleInput =
      capture_customer_run (.payload ⟨none, none⟩)
        ("a1b2c3d4e5f6a7b8a1b2c3d4e5f6a7b8".toList) "2025-01-01T00:00:00"
        sampleInput := by
  have h := capture_customer_profile_shape (.errorTagged "sheet write failed")
    (.payload ⟨none, none⟩) ("a1b2c3d4e5f6a7b8a1b2c3d4e5f6a7b8".toList)
    "2025-01-01T00:00:00" sampleInput (by decide) (by decide)
  refine ⟨h.1, h.2.1, h.2.2.2.1, ?_, h.2.2.2.2.2.2.2.2.2.2.2.2⟩
  rw [h.2.2.2.2.2.2.2.2.2.1]
  decide

/-- C8: in the recommendation campaign, the success counter counts exactly
the customers whose AI recommendation call produced at least one non-empty
suggestion, and the log of sent messages is exactly the recommendation
messages of those customers in order — a customer whose recommendation
result is empty contributes 0 to `recommendations_sent` and appears in no
log entry. -/
theorem recommendation_campaign_sends_iff_nonempty
    (bridge : CustomerProfile → McpResult)
    (recent_customers : List CustomerProfile) :
    (run_recommendation_campaign bridge
        recent_customers).1.recommendations_sent =
      (recent_customers.filter fun c =>
        !(get_ai_recommendations (bridge c)).isEmpty).length ∧
    (run_recommendation_campaign bridge recent_customers).2 =
      (recent_customers.filter fun c =>
        !(get_ai_recommendations (bridge c)).isEmpty).map (fun c =>
          (c, generate_recommendation_message c
            (get_ai_recommendations (bridge c)))) ∧
    (run_recommendation_campaign bridge recent_customers).1.target_count =
      recent_customers.length ∧
    (∀ c ∈ recent_customers, get_ai_recommendations (bridge c) = [] →
      ∀ m, (c, m) ∉ (run_recommendation_campaign bridge
        recent_customers).2) := by
  have h := recommendation_foldl bridge recent_customers (0, [])
  refine ⟨?_, ?_, rfl, ?_⟩
  · show (recent_customers.foldl (recommendationStep bridge) (0, [])).1 = _
    rw [h]
    simp
  · show (recent_customers.foldl (recommendationStep bridge) (0, [])).2 = _
    rw [h]
    simp
  · intro c _ hempty m hmem
    have hlog : (run_recommendation_campaign bridge recent_customers).2 =
        (recent_customers.filter fun x =>
          !(get_ai_recommendations (bridge x)).isEmpty).map (fun x =>
            (x, generate_recommendation_message x
              (get_ai_recommendations (bridge x)))) := by
      show (recent_customers.foldl (recommendationStep bridge) (0, [])).2 = _
      rw [h]
      simp
    rw [hlog, List.mem_map] at hmem
    obtain ⟨x, hx, hpair⟩ := hmem
    have hxc : x = c := congrArg Prod.fst hpair
    subst hxc
    have := List.of_mem_filter hx
    rw [hempty] at this
    simp at this

/-- Bridge used in the C8 witness: customer B gets two suggestions, every
other customer an error-tagged result. -/
def recBridgeDemo : CustomerProfile → McpResult := fun c =>
  if c.id = "CUST-BBBBBBBB" then
    .payload ⟨some "Matcha Latte\nOolong Tea", none⟩
  else .errorTagged "MCP tool error"

/-- Customer A of the C8 witness (empty recommendation result). -/
def recCustomerA : CustomerProfile := { sampleProfile with
  id := "CUST-AAAAAAAA" }

/-- Customer B of the C8 witness (two suggestions). -/
def recCustomerB : CustomerProfile := { sampleProfile with
  id := "CUST-BBBBBBBB" }

/-- Witness for C8: with customer A receiving an error-tagged (hence
empty) recommendation result and customer B two suggestions, exactly one
message is sent, and the log holds only the message of B. -/
theorem recommendation_campaign_witness :
    (run_recommendation_campaign recBridgeDemo
        [recCustomerA, recCustomerB]).1.recommendations_sent = 1 ∧
    (run_recommendation_campaign recBridgeDemo
        [recCustomerA, recCustomerB]).2 =
      [(recCustomerB,
        "Hi Sample Customer! Based on your taste, you might love: " ++
          "Matcha Latte, Oolong Tea")] := by
  have h := recommendation_campaign_sends_iff_nonempty recBridgeDemo
    [recCustomerA, recCustomerB]
  refine ⟨?_, ?_⟩
  · rw [h.1]; decide
  · rw [h.2.1]; decide

/-- C9: a Tool Bridge failure during message generation does not increment
the re-engagement error counter: `_generate_personalized_message` falls
back to the fixed default text whenever the AI result carries no text
payload (in particular on an error-tagged result), so generation and
sending are total, every targeted customer is sent a message,
`messages_sent` equals N, and `errors` is 0. -/
theorem we_miss_you_bridge_failure_uses_default
    (bridge : CustomerProfile → McpResult)
    (inactive_customers : List CustomerProfile) :
    (run_we_miss_you_campaign
        (fun c => .ok (generate_personalized_message (bridge c)))
        (fun _ _ => .ok ()) inactive_customers).1.errors = 0 ∧
    (run_we_miss_you_campaign
        (fun c => .ok (generate_personalized_message (bridge c)))
        (fun _ _ => .ok ()) inactive_customers).1.messages_sent =
      inactive_customers.length ∧
    (run_we_miss_you_campaign
        (fun c => .ok (generate_personalized_message (bridge c)))
        (fun _ _ => .ok ()) inactive_customers).2 =
      inactive_customers.map
        (fun c => (c, generate_personalized_message (bridge c))) ∧
    (∀ c msg, bridge c = .errorTagged msg →
      generate_personalized_message (bridge c) =
        "We miss you! Come back for 15% off!") := by
  have h := weMissYou_foldl_total
    (fun c => generate_personalized_message (bridge c)) inactive_customers
    (0, 0, [])
  refine ⟨?_, ?_, ?_, ?_⟩
  · show (inactive_customers.foldl _ (0, 0, [])).2.1 = 0
    rw [h]
  · show (inactive_customers.foldl _ (0, 0, [])).1 = _
    rw [h]
    omega
  · show (inactive_customers.foldl _ (0, 0, [])).2.2 = _
    rw [h]
    simp
  · intro c msg hc
    rw [hc]
    rfl

/-- Witness for C9: with a bridge that always fails, the single targeted
customer is still sent the default message and the error count is 0. -/
theorem we_miss_you_bridge_failure_witness :
    (run_we_miss_you_campaign
        (fun c => .ok (generate_personalized_message
          ((fun _ => .errorTagged "bridge down") c)))
        (fun _ _ => .ok ()) [sampleProfile]).1.errors = 0 ∧
    (run_we_miss_you_campaign
        (fun c => .ok (generate_personalized_message
          ((fun _ => .errorTagged "bridge down") c)))
        (fun _ _ => .ok ()) [sampleProfile]).1.messages_sent = 1 ∧
    (run_we_miss_you_campaign
        (fun c => .ok (generate_personalized_message
          ((fun _ => .errorTagged "bridge down") c)))
        (fun _ _ => .ok ()) [sampleProfile]).2 =
      [(sampleProfile, "We miss you! Come back for 15% off!")] := by
  have h := we_miss_you_bridge_failure_uses_default
    (fun _ => .errorTagged "bridge down") [sampleProfile]
  refine ⟨h.1, h.2.1, ?_⟩
  rw [h.2.2.1]
  rw [List.map_singleton,
    h.2.2.2 sampleProfile "bridge down" rfl]

end BobaBot
